import Mathlib

/-!
Shallow embedding of `src/opencl_matrix_add.cpp` (an OpenCL element-wise
vector-add demo) and proofs about the claims of its specification.

Machine integers are modelled as `Int` with explicit 32-bit wrap-around
where overflow could matter; the C `rand()` stream is modelled as an
arbitrary function from call index to a natural number (the C standard
fixes no particular values); OpenCL host calls are modelled by their
observable effects (status codes, event traces, buffer-size state).
-/

/-- 32-bit two's-complement wrap-around for a signed int result. -/
def wrap32 (x : Int) : Int :=
  (x + 2147483648) % 4294967296 - 2147483648

/-- Array filled by `init` (source lines 113-121): element `i` is
`rand() % 100`, where the `rand()` call for index `i` is call number
`off + i` of the process-wide stream `r`. -/
def initArr (r : Nat → Nat) (off size : Nat) : List Int :=
  (List.range size).map fun i => ((r (off + i)) % 100 : Nat)

/-- Outcome of one `init(A, size)` call. -/
inductive InitOutcome where
  | ok (a : List Int)
  | nullNoWrite
  | nullDeref
  | fatalExit (code : Nat)
deriving DecidableEq, Repr

/-- Model of `init` (source lines 113-121): `malloc` followed by an
unconditional write loop. The source contains no null-pointer check and
no exit path: if the allocation fails and `size >= 1` the first loop
iteration writes through the null pointer. -/
def initModel (allocOk : Bool) (r : Nat → Nat) (off size : Nat) : InitOutcome :=
  if allocOk then InitOutcome.ok (initArr r off size)
  else if size = 0 then InitOutcome.nullNoWrite
  else InitOutcome.nullDeref

/-- Modelled from the spec: the kernel source file `vector_ops_ocl.cl` is
not under `src/` (only the host `.cpp` is). Per the spec, the kernel
`vector_add_ocl` performs `out[i] = v1[i] + v2[i]` for each of the `sz`
work-items, with 32-bit int addition. -/
def vector_add_ocl (sz : Nat) (b1 b2 : List Int) : List Int :=
  (List.range sz).map fun i => wrap32 (b1.getD i 0 + b2.getD i 0)

/-- Host vector `v1` after `init(v1, SZ)`: `rand()` calls `0..SZ-1`. -/
def runV1 (r : Nat → Nat) (n : Nat) : List Int := initArr r 0 n

/-- Host vector `v2` after `init(v2, SZ)`: `rand()` calls `SZ..2*SZ-1`. -/
def runV2 (r : Nat → Nat) (n : Nat) : List Int := initArr r n n

/-- Host vector `v_out` after the blocking `clEnqueueReadBuffer` of
`SZ * sizeof(int)` bytes from the device output buffer (source lines
93-94): the device buffer holds the kernel's result on the uploaded
copies of `v1` and `v2`. -/
def runVOut (r : Nat → Nat) (n : Nat) : List Int :=
  vector_add_ocl n (runV1 r n) (runV2 r n)

theorem getD_range_map (f : Nat → Int) (n i : Nat) (h : i < n) :
    (((List.range n).map f).getD i 0) = f i := by
  simp [List.getD, List.getElem?_map, List.getElem?_range, h]

theorem initArr_getD (r : Nat → Nat) (off size i : Nat) (h : i < size) :
    (initArr r off size).getD i 0 = ((r (off + i)) % 100 : Nat) := by
  simpa [initArr] using getD_range_map (fun i => ((r (off + i)) % 100 : Nat)) size i h

theorem initArr_getD_nonneg_lt (r : Nat → Nat) (off size i : Nat) (h : i < size) :
    0 ≤ (initArr r off size).getD i 0 ∧ (initArr r off size).getD i 0 < 100 := by
  rw [initArr_getD r off size i h]
  constructor
  · exact Int.ofNat_nonneg _
  · exact_mod_cast Nat.mod_lt _ (by norm_num)

theorem wrap32_id_of_small (x : Int) (h0 : 0 ≤ x) (h1 : x < 2147483648) :
    wrap32 x = x := by
  unfold wrap32
  rw [Int.emod_eq_of_lt (by omega) (by omega)]
  omega

/-- C1: after the kernel dispatch, the wait, and the blocking read-back,
the host output vector satisfies `v_out[i] = v1[i] + v2[i]` for every
`i < n`, for every vector length `n >= 1` and every `rand()` stream. -/
theorem vout_is_elementwise_sum (r : Nat → Nat) (n i : Nat)
    (hn : 1 ≤ n) (hi : i < n) :
    (runVOut r n).getD i 0 = (runV1 r n).getD i 0 + (runV2 r n).getD i 0 := by
  have h1 := initArr_getD_nonneg_lt r 0 n i hi
  have h2 := initArr_getD_nonneg_lt r n n i hi
  unfold runVOut vector_add_ocl
  rw [getD_range_map (fun i => wrap32 ((runV1 r n).getD i 0 + (runV2 r n).getD i 0)) n i hi]
  exact wrap32_id_of_small _ (by unfold runV1 runV2; omega) (by unfold runV1 runV2; omega)

theorem vout_is_elementwise_sum_witness :
    (1 ≤ 2 ∧ 1 < 2) ∧
      (runVOut (fun k => k) 2).getD 1 0 =
        (runV1 (fun k => k) 2).getD 1 0 + (runV2 (fun k => k) 2).getD 1 0 :=
  ⟨⟨by decide, by decide⟩, vout_is_elementwise_sum (fun k => k) 2 1 (by decide) (by decide)⟩

/-- C4 counterexample: with a `rand()` stream whose first value is 99
(any value congruent to 99 mod 100, all of which `rand()` can return),
the element stored by `init` is 99, which is not `< 99`; the claimed
half-open interval `[0, 99)` is wrong. -/
theorem init_range_counterexample :
    ¬ ((initArr (fun _ => 99) 0 1).getD 0 0 < 99) := by decide

/-- C4 amended: every element stored by `init` lies in `[0, 100)`,
i.e. `0 <= A[i] <= 99`, for every stream, offset, size and index. -/
theorem init_range_amended (r : Nat → Nat) (off size i : Nat) (h : i < size) :
    0 ≤ (initArr r off size).getD i 0 ∧ (initArr r off size).getD i 0 < 100 :=
  initArr_getD_nonneg_lt r off size i h

theorem init_range_amended_witness :
    (0 : Nat) < 1 ∧
      (0 ≤ (initArr (fun _ => 99) 0 1).getD 0 0 ∧ (initArr (fun _ => 99) 0 1).getD 0 0 < 100) :=
  ⟨by decide, init_range_amended (fun _ => 99) 0 1 0 (by decide)⟩

/-- C5 counterexample: when the allocation fails and `size = 1`, `init`
dereferences the null allocation in the first loop iteration; it does
not terminate the process fatally (nothing in `init` can produce a
`fatalExit`). -/
theorem init_null_counterexample :
    initModel false (fun _ => 0) 0 1 = InitOutcome.nullDeref := by decide

/-- C5 amended: `init` performs no allocation-failure check. If the
allocation fails and `size >= 1`, `init` dereferences the null
allocation; it never terminates the process fatally. -/
theorem init_null_amended (r : Nat → Nat) (size : Nat) (h : 1 ≤ size) :
    initModel false r 0 size = InitOutcome.nullDeref ∧
      ∀ c, initModel false r 0 size ≠ InitOutcome.fatalExit c := by
  have hz : size ≠ 0 := by omega
  refine ⟨by simp [initModel, hz], fun c => by simp [initModel, hz]⟩

theorem init_null_amended_witness :
    initModel false (fun _ => 7) 0 3 = InitOutcome.nullDeref ∧
      ∀ c, initModel false (fun _ => 7) 0 3 ≠ InitOutcome.fatalExit c :=
  init_null_amended (fun _ => 7) 3 (by decide)

/-- The default seed of the C `rand()` generator: calling `rand()`
without a prior `srand` behaves as if `srand(1)` had been called. -/
def defaultSeed : Nat := 1

/-- The source file contains no call to `srand`: `main` (source lines
54-110) goes straight from argument parsing to the three `init` calls. -/
def programCallsSrand : Bool := false

/-- Seed the `rand()` stream actually starts from in a given run:
whatever seed the environment would supply is used only if the program
calls `srand`, which it does not. -/
def processSeed (envSeed : Nat) : Nat :=
  if programCallsSrand then envSeed else defaultSeed

/-- Host-side initialization of one run: the three arrays filled by the
`init` calls of `main`, with the `rand()` stream drawn from a
seed-indexed family starting at the run's process seed. -/
def hostInitValues (rand : Nat → Nat → Nat) (envSeed n : Nat) :
    List Int × List Int × List Int :=
  let r := rand (processSeed envSeed)
  (initArr r 0 n, initArr r n n, initArr r (2 * n) n)

/-- C10: the program never seeds the generator, so two runs with the
same length `n` produce identical `v1`, `v2`, `v_out` initial values,
whatever seed each run's environment would have supplied. -/
theorem host_init_deterministic (rand : Nat → Nat → Nat) (env1 env2 n : Nat) :
    hostInitValues rand env1 n = hostInitValues rand env2 n := by
  simp [hostInitValues, processSeed, programCallsSrand]

/-- One token of `print`'s standard-output stream: a number (printed
with a trailing space), the literal ellipsis marker " ..... ", or the
final newline-plus-separator line. -/
inductive Tok where
  | num (x : Int)
  | ellipsis
  | sep
deriving DecidableEq, Repr

/-- The compile-time printing flag (source line 7). -/
def PRINT : Nat := 1

/-- Model of `print(A, size)` (source lines 124-156) as the list of
tokens written to standard output: early return when `PRINT == 0`;
first 5 and last 5 elements around an ellipsis when `PRINT == 1` and
`size > 15`; all elements otherwise; always followed by the
newline-plus-separator line. -/
def printTokens (A : List Int) (size : Nat) : List Tok :=
  if PRINT = 0 then []
  else if PRINT = 1 ∧ 15 < size then
    ((List.range 5).map fun i => Tok.num (A.getD i 0))
      ++ [Tok.ellipsis]
      ++ ((List.range 5).map fun i => Tok.num (A.getD (size - 5 + i) 0))
      ++ [Tok.sep]
  else
    ((List.range size).map fun i => Tok.num (A.getD i 0)) ++ [Tok.sep]

theorem range_map_getD (A : List Int) (f : Int → Tok) :
    ((List.range A.length).map fun i => f (A.getD i 0)) = A.map f := by
  apply List.ext_getElem
  · simp
  · intro i h1 h2
    simp only [List.getElem_map, List.getElem_range]
    congr 1
    simp only [List.length_map, List.length_range] at h1
    simp [List.getD, List.getElem?_eq_getElem, h1]

theorem range5_map_getD_take (A : List Int) (h : 15 < A.length) :
    ((List.range 5).map fun i => Tok.num (A.getD i 0)) = (A.take 5).map Tok.num := by
  apply List.ext_getElem
  · simp; omega
  · intro i h1 h2
    simp only [List.length_map, List.length_range] at h1
    have hA : i < A.length := by omega
    simp [List.getD, List.getElem?_eq_getElem, List.getElem_take, h1, hA]

theorem range5_map_getD_drop (A : List Int) (h : 15 < A.length) :
    ((List.range 5).map fun i => Tok.num (A.getD (A.length - 5 + i) 0))
      = (A.drop (A.length - 5)).map Tok.num := by
  apply List.ext_getElem
  · simp; omega
  · intro i h1 h2
    simp only [List.length_map, List.length_range] at h1
    have hlt : A.length - 5 + i < A.length := by omega
    simp [List.getD, List.getElem?_eq_getElem, List.getElem_drop, hlt, h1]

/-- C6: with printing enabled, `print` on an array of length `n` emits
all `n` elements in order when `n <= 15`, and exactly the first 5
elements, the ellipsis marker, and the last 5 elements when `n > 15`;
in both cases the output ends with the newline-plus-separator token. -/
theorem print_spec (A : List Int) :
    (A.length ≤ 15 →
        printTokens A A.length = A.map Tok.num ++ [Tok.sep]) ∧
      (15 < A.length →
        printTokens A A.length =
          (A.take 5).map Tok.num ++ [Tok.ellipsis]
            ++ (A.drop (A.length - 5)).map Tok.num ++ [Tok.sep]) := by
  constructor
  · intro h
    rw [printTokens, if_neg (by simp [PRINT]), if_neg (by simp [PRINT]; omega),
      range_map_getD]
  · intro h
    rw [printTokens, if_neg (by simp [PRINT]), if_pos ⟨rfl, h⟩,
      range5_map_getD_take A h, range5_map_getD_drop A h]

theorem print_spec_witness :
    printTokens [3, 1, 2] 3 = [Tok.num 3, Tok.num 1, Tok.num 2, Tok.sep] ∧
      printTokens [0, 1, 2, 3, 4, 5, 6, 7, 8, 9, 10, 11, 12, 13, 14, 15] 16 =
        [Tok.num 0, Tok.num 1, Tok.num 2, Tok.num 3, Tok.num 4, Tok.ellipsis,
          Tok.num 11, Tok.num 12, Tok.num 13, Tok.num 14, Tok.num 15, Tok.sep] := by
  constructor
  · have h := (print_spec [3, 1, 2]).1 (by decide)
    simpa using h
  · have h := (print_spec [0, 1, 2, 3, 4, 5, 6, 7, 8, 9, 10, 11, 12, 13, 14, 15]).2 (by decide)
    simpa using h

/-- The OpenCL status code CL_DEVICE_NOT_FOUND. -/
def clDeviceNotFound : Int := -1

/-- Result of `create_device`: a device handle (recording whether it
came from the CPU fallback), or fatal process exit. -/
inductive DevResult where
  | dev (fromCPU : Bool)
  | fatalExit (code : Nat)
deriving DecidableEq, Repr

/-- Model of `create_device` (source lines 334-366). The first
component lists the `clGetDeviceIDs` queries performed in order
(`false` = GPU, `true` = CPU): the GPU is always queried first, and the
CPU is queried exactly when the GPU query returned
CL_DEVICE_NOT_FOUND. A negative final status is fatal (`exit(1)`), as
is a negative `clGetPlatformIDs` status. -/
def create_device (platformStatus gpuStatus cpuStatus : Int) :
    List Bool × DevResult :=
  if platformStatus < 0 then ([], DevResult.fatalExit 1)
  else
    let fallback := gpuStatus = clDeviceNotFound
    let queries := if fallback then [false, true] else [false]
    let err := if fallback then cpuStatus else gpuStatus
    (queries, if err < 0 then DevResult.fatalExit 1 else DevResult.dev fallback)

/-- C7: when the platform lookup succeeds, device selection queries the
GPU first; it queries the CPU exactly when the GPU lookup failed with
CL_DEVICE_NOT_FOUND; if the GPU was not found and the CPU lookup also
fails, the process exits fatally with status 1; if the GPU was not
found but a CPU is available, a device is obtained via the fallback. -/
theorem create_device_spec (p g c : Int) (hp : 0 ≤ p) :
    (create_device p g c).1.head? = some false ∧
      ((create_device p g c).1 = [false, true] ↔ g = clDeviceNotFound) ∧
      (g = clDeviceNotFound → c < 0 →
        (create_device p g c).2 = DevResult.fatalExit 1) ∧
      (g = clDeviceNotFound → 0 ≤ c →
        (create_device p g c).2 = DevResult.dev true) := by
  have hnp : ¬ p < 0 := by omega
  by_cases hg : g = clDeviceNotFound
  · refine ⟨by simp [create_device, hnp, hg], by simp [create_device, hnp, hg],
      fun _ hc => by simp [create_device, hnp, hg, hc], fun _ hc => ?_⟩
    have : ¬ c < 0 := by omega
    simp [create_device, hnp, hg, this]
  · exact ⟨by simp [create_device, hnp, hg], by simp [create_device, hnp, hg],
      fun h => absurd h hg, fun h => absurd h hg⟩

theorem create_device_spec_witness :
    (create_device 0 (-1) 0).1.head? = some false ∧
      ((create_device 0 (-1) 0).1 = [false, true] ↔ (-1 : Int) = clDeviceNotFound) ∧
      ((-1 : Int) = clDeviceNotFound → (0 : Int) < 0 →
        (create_device 0 (-1) 0).2 = DevResult.fatalExit 1) ∧
      ((-1 : Int) = clDeviceNotFound → (0 : Int) ≤ 0 →
        (create_device 0 (-1) 0).2 = DevResult.dev true) :=
  create_device_spec 0 (-1) 0 (by norm_num)

/-- Observable host-side events of one run, in program order. -/
inductive Ev where
  | initHost
  | printHost
  | getPlatformIDs
  | getDeviceIDs (cpu : Bool)
  | createContext
  | fopenKernel
  | createProgramWithSource
  | buildProg
  | createQueue
  | createKernelEv
  | createBuffer (i : Fin 3)
  | writeBuffer (i : Fin 3)
  | setKernelArg (i : Fin 4)
  | timeStart
  | enqueueNDRange
  | waitForEvents
  | readBuffer
  | printResult
  | timeStop
  | printTime
  | releaseAll
  | exitProc (code : Nat)
deriving DecidableEq, Repr

/-- Environment of one run: the status each OpenCL call would return
and whether the kernel-source file exists / the buffer handles are
non-null. -/
structure Env where
  platformStatus : Int
  gpuStatus : Int
  cpuStatus : Int
  contextStatus : Int
  fileExists : Bool
  progCreateStatus : Int
  buildStatus : Int
  queueStatus : Int
  kernelStatus : Int
  buffersNull : Bool

/-- Sequencing with early process exit: once a phase has exited
(second component `true`), later phases never run. -/
def andThen : List Ev × Bool → List Ev × Bool → List Ev × Bool
  | (t, true), _ => (t, true)
  | (t, false), (u, b) => (t ++ u, b)

/-- Event trace of `create_device` (source lines 334-366), built from
the `create_device` model: the platform query, then the device queries
in order, then `exit(1)` when the final status is fatal. -/
def createDeviceTrace (e : Env) : List Ev × Bool :=
  match create_device e.platformStatus e.gpuStatus e.cpuStatus with
  | (qs, DevResult.fatalExit c) =>
      (Ev.getPlatformIDs :: qs.map Ev.getDeviceIDs ++ [Ev.exitProc c], true)
  | (qs, DevResult.dev _) =>
      (Ev.getPlatformIDs :: qs.map Ev.getDeviceIDs, false)

/-- Event trace of `build_program` (source lines 268-331): `fopen`
(fatal if the file is missing), `clCreateProgramWithSource` (fatal on
negative status), `clBuildProgram` (fatal on negative status, after
printing the build log). -/
def buildProgramTrace (e : Env) : List Ev × Bool :=
  if e.fileExists = false then ([Ev.fopenKernel, Ev.exitProc 1], true)
  else if e.progCreateStatus < 0 then
    ([Ev.fopenKernel, Ev.createProgramWithSource, Ev.exitProc 1], true)
  else if e.buildStatus < 0 then
    ([Ev.fopenKernel, Ev.createProgramWithSource, Ev.buildProg, Ev.exitProc 1], true)
  else ([Ev.fopenKernel, Ev.createProgramWithSource, Ev.buildProg], false)

/-- Event trace of `setup_openCL_device_context_queue_kernel` (source
lines 229-265): device creation, context creation, program build,
command-queue creation, kernel creation, each fatal on negative
status. -/
def setupTrace (e : Env) : List Ev × Bool :=
  andThen (createDeviceTrace e) <|
  andThen (if e.contextStatus < 0 then ([Ev.createContext, Ev.exitProc 1], true)
           else ([Ev.createContext], false)) <|
  andThen (buildProgramTrace e) <|
  andThen (if e.queueStatus < 0 then ([Ev.createQueue, Ev.exitProc 1], true)
           else ([Ev.createQueue], false))
  (if e.kernelStatus < 0 then ([Ev.createKernelEv, Ev.exitProc 1], true)
   else ([Ev.createKernelEv], false))

/-- Event trace of `setup_kernel_memory` (source lines 203-226): three
`clCreateBuffer` calls, a null-handle check (fatal), then the two
blocking `clEnqueueWriteBuffer` uploads. -/
def setupKernelMemoryTrace (e : Env) : List Ev × Bool :=
  if e.buffersNull then
    ([Ev.createBuffer 0, Ev.createBuffer 1, Ev.createBuffer 2, Ev.exitProc 1], true)
  else
    ([Ev.createBuffer 0, Ev.createBuffer 1, Ev.createBuffer 2,
      Ev.writeBuffer 0, Ev.writeBuffer 1], false)

/-- Event trace of `copy_kernel_args` (source lines 179-200): four
`clSetKernelArg` calls whose statuses are discarded, then the guard on
the process-global `err` (whose value here is the `clBuildProgram`
status, the last write to the global). -/
def copyKernelArgsTrace (globalErr : Int) : List Ev × Bool :=
  if globalErr < 0 then
    ([Ev.setKernelArg 0, Ev.setKernelArg 1, Ev.setKernelArg 2, Ev.setKernelArg 3,
      Ev.exitProc 1], true)
  else
    ([Ev.setKernelArg 0, Ev.setKernelArg 1, Ev.setKernelArg 2, Ev.setKernelArg 3],
      false)

/-- Event trace of `main` (source lines 54-110): three `init` calls,
two `print` calls, OpenCL setup, device-memory setup and upload,
argument binding, then the start timestamp, kernel enqueue, wait,
blocking read-back, result print, stop timestamp, timing print and
teardown. -/
def mainTrace (e : Env) : List Ev × Bool :=
  andThen ([Ev.initHost, Ev.initHost, Ev.initHost, Ev.printHost, Ev.printHost], false) <|
  andThen (setupTrace e) <|
  andThen (setupKernelMemoryTrace e) <|
  andThen (copyKernelArgsTrace e.buildStatus)
  ([Ev.timeStart, Ev.enqueueNDRange, Ev.waitForEvents, Ev.readBuffer,
    Ev.printResult, Ev.timeStop, Ev.printTime, Ev.releaseAll], false)

/-- Environment of a fully successful run. -/
def happyEnv : Env :=
  { platformStatus := 0, gpuStatus := 0, cpuStatus := 0, contextStatus := 0
    fileExists := true, progCreateStatus := 0, buildStatus := 0
    queueStatus := 0, kernelStatus := 0, buffersNull := false }

/-- Event trace of the fully successful run. -/
def happyTrace : List Ev := (mainTrace happyEnv).1

/-- C3 counterexample: in the fully successful run, the blocking
read-back of the output buffer (the download, source lines 93-94)
occurs strictly between the start timestamp (source line 84) and the
stop timestamp (source line 100), so the claim that no download
operation occurs between the two timestamps is false. -/
theorem timing_counterexample :
    happyTrace[22]? = some Ev.timeStart ∧ happyTrace[25]? = some Ev.readBuffer ∧
      happyTrace[27]? = some Ev.timeStop ∧ 22 < 25 ∧ 25 < 27 := by decide

/-- C3 amended: the timed interval covers the kernel dispatch, the wait
for its completion event, the blocking download of the output buffer,
and the result print; the uploads and every setup operation occur
before the start timestamp, and only the timing print and teardown
follow the stop timestamp. -/
theorem timed_region_amended :
    happyTrace[22]? = some Ev.timeStart ∧
      (happyTrace.drop 23).take 4 =
        [Ev.enqueueNDRange, Ev.waitForEvents, Ev.readBuffer, Ev.printResult] ∧
      happyTrace[27]? = some Ev.timeStop ∧
      Ev.writeBuffer 0 ∈ happyTrace.take 22 ∧
      Ev.writeBuffer 1 ∈ happyTrace.take 22 ∧
      Ev.writeBuffer 0 ∉ happyTrace.drop 22 ∧
      Ev.writeBuffer 1 ∉ happyTrace.drop 22 ∧
      Ev.fopenKernel ∈ happyTrace.take 22 ∧
      Ev.createQueue ∈ happyTrace.take 22 ∧
      Ev.createKernelEv ∈ happyTrace.take 22 ∧
      happyTrace.drop 28 = [Ev.printTime, Ev.releaseAll] := by decide

/-- C8: whenever the kernel-source file cannot be opened, the run's
trace ends with `exit(1)` and contains no `clCreateBuffer` call: the
process exits with nonzero status before any device buffer allocation
is attempted. -/
theorem file_missing_exits_before_buffers (e : Env) (hf : e.fileExists = false) :
    (mainTrace e).1.getLast? = some (Ev.exitProc 1) ∧
      ∀ i : Fin 3, Ev.createBuffer i ∉ (mainTrace e).1 := by
  by_cases hp : e.platformStatus < 0 <;>
  by_cases hg : e.gpuStatus = clDeviceNotFound <;>
  by_cases hc : e.cpuStatus < 0 <;>
  by_cases hgpu : e.gpuStatus < 0 <;>
  by_cases hctx : e.contextStatus < 0 <;>
  simp [mainTrace, setupTrace, createDeviceTrace, create_device, buildProgramTrace,
    setupKernelMemoryTrace, copyKernelArgsTrace, andThen, hf, hp, hg, hc, hgpu, hctx]

theorem file_missing_exits_before_buffers_witness :
    (mainTrace ⟨0, 0, 0, 0, false, 0, 0, 0, 0, false⟩).1.getLast?
        = some (Ev.exitProc 1) ∧
      ∀ i : Fin 3,
        Ev.createBuffer i ∉ (mainTrace ⟨0, 0, 0, 0, false, 0, 0, 0, 0, false⟩).1 :=
  file_missing_exits_before_buffers ⟨0, 0, 0, 0, false, 0, 0, 0, 0, false⟩ rfl

/-- Byte sizes of the three device buffers `bufV1`, `bufV2`,
`bufV_out` (`none` = not yet created). -/
structure BufSizes where
  s0 : Option Nat
  s1 : Option Nat
  s2 : Option Nat
deriving DecidableEq, Repr

/-- Byte size of a C `int` on the target platform. -/
def sizeofInt : Nat := 4

/-- Effect of one host event on the buffer sizes: each of the three
`clCreateBuffer` calls (source lines 207-212) creates its buffer with
byte-size `SZ * sizeof(int)`; no other call in the program takes or
changes a buffer size. -/
def stepBuf (sz : Nat) (s : BufSizes) : Ev → BufSizes
  | Ev.createBuffer i =>
      if i = 0 then { s with s0 := some (sz * sizeofInt) }
      else if i = 1 then { s with s1 := some (sz * sizeofInt) }
      else { s with s2 := some (sz * sizeofInt) }
  | _ => s

/-- Buffer sizes after the first `k` events of the successful run. -/
def bufSizesAfter (sz k : Nat) : BufSizes :=
  (happyTrace.take k).foldl (stepBuf sz) ⟨none, none, none⟩

theorem stepBuf_preserves (sz : Nat) (s : BufSizes) (ev : Ev)
    (h : s = ⟨some (sz * sizeofInt), some (sz * sizeofInt), some (sz * sizeofInt)⟩) :
    stepBuf sz s ev = ⟨some (sz * sizeofInt), some (sz * sizeofInt), some (sz * sizeofInt)⟩ := by
  subst h
  cases ev with
  | createBuffer i =>
      by_cases h0 : i = 0
      · simp [stepBuf, h0]
      · by_cases h1 : i = 1 <;> simp [stepBuf, h0, h1]
  | _ => rfl

/-- C9: in the successful run, from the moment all three device buffers
have been created (the first 16 events) onward, every reachable state
has each buffer's byte-size equal to `SZ * sizeof(int)`: the buffers
are created with exactly that size and no later operation changes it. -/
theorem buffer_sizes_invariant (sz k : Nat) (hk : 16 ≤ k) :
    bufSizesAfter sz k =
      ⟨some (sz * sizeofInt), some (sz * sizeofInt), some (sz * sizeofInt)⟩ := by
  induction k with
  | zero => omega
  | succ n ih =>
      rcases Nat.lt_or_ge n 16 with hn | hn
      · have hne : n + 1 = 16 := by omega
        rw [hne]
        rfl
      · have hstep := ih (by omega)
        rcases Nat.lt_or_ge n happyTrace.length with hlen | hlen
        · rw [bufSizesAfter, List.take_succ, List.foldl_append, ← bufSizesAfter, hstep]
          rw [List.getElem?_eq_getElem hlen]
          exact stepBuf_preserves sz _ _ rfl
        · have h1 : happyTrace.take (n + 1) = happyTrace :=
            List.take_of_length_le (by omega)
          have h2 : happyTrace.take n = happyTrace :=
            List.take_of_length_le (by omega)
          rw [bufSizesAfter, h1, ← h2, ← bufSizesAfter]
          exact hstep

theorem buffer_sizes_invariant_witness :
    16 ≤ 20 ∧
      bufSizesAfter 5 20 =
        ⟨some (5 * sizeofInt), some (5 * sizeofInt), some (5 * sizeofInt)⟩ :=
  ⟨by norm_num, buffer_sizes_invariant 5 20 (by norm_num)⟩

/-- Outcome of `copy_kernel_args`: the process either proceeds to the
kernel dispatch or exits fatally. -/
inductive ArgsOutcome where
  | proceeded
  | fatalExit (code : Nat)
deriving DecidableEq, Repr

/-- Model of `copy_kernel_args` (source lines 179-200): the four
`clSetKernelArg` calls are performed and their returned statuses are
discarded (no variable receives them); the error guard then tests the
process-global `err`, whose value on entry is the status left by
`clBuildProgram` (the last write to the global, source line 311),
nonnegative on every path that reaches this function. The first
component records that all four binds were performed. -/
def copy_kernel_args (bindStatuses : Fin 4 → Int) (globalErr : Int) :
    Nat × ArgsOutcome :=
  (4, if globalErr < 0 then ArgsOutcome.fatalExit 1 else ArgsOutcome.proceeded)

/-- C2: the claim fails on the code. With bind statuses
(-48, 0, 0, 0) — the first `clSetKernelArg` failing with
CL_INVALID_ARG_INDEX — and the global `err` at its on-entry value 0,
`copy_kernel_args` performs all four binds and proceeds without
exiting; moreover for every combination of bind statuses the outcome
with global `err` 0 is to proceed: the discarded bind statuses cannot
trigger the fatal path. -/
theorem copy_kernel_args_ignores_bind_failure :
    copy_kernel_args (fun i => if i = 0 then -48 else 0) 0
        = (4, ArgsOutcome.proceeded) ∧
      ∀ binds : Fin 4 → Int, (copy_kernel_args binds 0).2 = ArgsOutcome.proceeded := by
  exact ⟨rfl, fun binds => rfl⟩
